import Mathlib

/-!
Verification of the EROS M2M download client (`src/download.py`,
`src/EROS_Download.py`) against its natural-language specification.

Each Python function relevant to the claims is shallowly embedded as an
executable Lean definition. Network responses are inputs (oracles) to the
embedded functions; side effects that matter to the claims (connection
close, process abort via `sys.exit`, network transfers, file writes) are
made explicit in the result types.
-/

namespace ErosDownload

/-! ## API request transport (`send_request`, download.py lines 27-76)

The JSON response body is modelled as `Option (Envelope α)`: `none` means
`json.loads(response.text)` or the subsequent `output['errorCode']` access
raises (the body cannot be parsed into the expected envelope), which lands
in the `except Exception` handler. `α` is the type of the `data` field,
which depends on the calling operation.
-/

/-- Envelope of the M2M API response as consumed by the client:
`{errorCode, errorMessage, data}`. -/
structure Envelope (α : Type) where
  errorCode : Option String
  errorMessage : String
  data : α
  deriving Repr, DecidableEq

/-- The HTTP response as seen by `send_request` after `requests.post`:
a status code and a body that may or may not parse into an envelope. -/
structure HttpResponse (α : Type) where
  status_code : Nat
  body : Option (Envelope α)
  deriving Repr, DecidableEq

/-- Outcome of `send_request`. `exit` is `sys.exit()` (the run aborts);
`ok` is the normal return of `output['data']`. The `closed` flag records
whether `response.close()` was executed before the function ended.

Control-flow note from the source: `sys.exit()` raises `SystemExit`,
which derives from `BaseException`, not `Exception`; the
`except Exception` handler therefore does not catch it, and there is no
`finally` clause, so the `response.close()` calls at download.py lines 73
and 75 are reached only on the handler path and on the fall-through
success path respectively. -/
inductive ReqResult (α : Type) where
  | exit (closed : Bool)
  | ok (data : α) (closed : Bool)
  deriving Repr, DecidableEq

/-- Embedding of `send_request` (download.py lines 53-76; identically
`DownloadEORS.send_request`, EROS_Download.py lines 63-88). The
`if response is None` test in the source is unreachable (`requests.post`
never returns `None`, and `response.status_code` was already read), so it
is not modelled. The checks run in source order: parse, `errorCode`,
then status 404 / 401 / 400. -/
def send_request {α : Type} (resp : HttpResponse α) : ReqResult α :=
  match resp.body with
  | none => .exit true
  | some output =>
    if output.errorCode ≠ none then .exit false
    else if resp.status_code = 404 then .exit false
    else if resp.status_code = 401 then .exit false
    else if resp.status_code = 400 then .exit false
    else .ok output.data true

/-- The run aborts on this response: the body does not parse into the
envelope, or the parsed `errorCode` is non-null, or the HTTP status is
400, 401 or 404. -/
def fatalResponse {α : Type} (resp : HttpResponse α) : Prop :=
  resp.body = none
    ∨ (∃ env, resp.body = some env ∧ env.errorCode ≠ none)
    ∨ resp.status_code = 400 ∨ resp.status_code = 401 ∨ resp.status_code = 404

/-- The result is an abort (`sys.exit`). -/
def ReqResult.isExit {α : Type} : ReqResult α → Prop
  | .exit _ => True
  | .ok _ _ => False

/-- The `closed` flag of the result. -/
def ReqResult.closed {α : Type} : ReqResult α → Bool
  | .exit c => c
  | .ok _ c => c

/-! ## Dataset discovery (`get_avaliabole_datasets`, download.py lines 140-176;
identically `DownloadEORS.get_available_datasets`, EROS_Download.py
lines 90-113)

The `dataset-search` call is an oracle `search : String → List α` mapping
a candidate dataset name to the list returned in the response's `data`
field. The Python `datasets` dict is an association list built by dict
assignment (overwrite in place if the key exists, else append). -/

/-- Lookup in an association list, first match wins (Python `d[k]` /
`k in d`). -/
def alookup {α : Type} : List (String × α) → String → Option α
  | [], _ => none
  | (k, v) :: rest, key => if k = key then some v else alookup rest key

/-- Python dict assignment `d[k] = v`: overwrite the value in place if the
key is present, else append the new pair at the end. -/
def ainsert {α : Type} (m : List (String × α)) (k : String) (v : α) :
    List (String × α) :=
  if (alookup m k).isSome then
    m.map (fun p => if p.1 = k then (k, v) else p)
  else m ++ [(k, v)]

/-- Embedding of `get_avaliabole_datasets`: for each candidate name run
`dataset-search`; if the result list is nonempty, bind the name to its
first element. -/
def get_avaliabole_datasets {α : Type} (dataset_names : List String)
    (search : String → List α) : List (String × α) :=
  dataset_names.foldl
    (fun datasets dataset =>
      match search dataset with
      | [] => datasets
      | first :: _ => ainsert datasets dataset first)
    []

/-! ## Scene discovery (`get_sences_for_datasets`, download.py lines 179-237;
identically `DownloadEORS.get_scenes_for_datasets`, EROS_Download.py
lines 115-169)

`scene-search` and `download-options` are oracles keyed by the dataset
alias (the filters and page-size fields of the payloads are fixed per run
and do not vary across what the claims quantify over). -/

/-- One entry of a `download-options` result: the fields the client
consumes (`entityId`, `id`, `available`). -/
structure Product where
  entityId : String
  id : String
  available : Bool
  deriving Repr, DecidableEq

/-- A `{entityId, productId}` pair queued for download. -/
structure Candidate where
  entityId : String
  productId : String
  deriving Repr, DecidableEq

/-- The consumed fields of a `scene-search` response. -/
structure SceneSearchResult where
  recordsReturned : Nat
  resultEntityIds : List String
  deriving Repr, DecidableEq

/-- The dataset record fields consumed by scene discovery. -/
structure DatasetRecord where
  datasetAlias : String
  collectionName : String
  deriving Repr, DecidableEq

/-- The list comprehension
`[{entityId: p['entityId'], productId: p['id']} for p in options if p['available']]`. -/
def availableDownloads (options : List Product) : List Candidate :=
  (options.filter (fun p => p.available)).map
    (fun p => { entityId := p.entityId, productId := p.id })

/-- One iteration of the `get_sences_for_datasets` loop: run
`scene-search` under the record's alias; if `recordsReturned > 0`, run
`download-options` on the collected entity ids and keep the available
products as candidates; bind the alias only when that list is nonempty. -/
def gsdStep (sceneSearch : String → SceneSearchResult)
    (downloadOptions : String → List String → List Product)
    (sence_to_downloads : List (String × List Candidate))
    (p : String × DatasetRecord) : List (String × List Candidate) :=
  let dataset_name := p.2.datasetAlias
  let scenes := sceneSearch dataset_name
  if scenes.recordsReturned > 0 then
    let scene_ids := scenes.resultEntityIds
    let download_options := downloadOptions dataset_name scene_ids
    let downloads := availableDownloads download_options
    if downloads ≠ [] then ainsert sence_to_downloads dataset_name downloads
    else sence_to_downloads
  else sence_to_downloads

/-- Embedding of `get_sences_for_datasets`: iterate `gsdStep` over the
dataset records, starting from the empty mapping. -/
def get_sences_for_datasets (datasets : List (String × DatasetRecord))
    (sceneSearch : String → SceneSearchResult)
    (downloadOptions : String → List String → List Product) :
    List (String × List Candidate) :=
  datasets.foldl (gsdStep sceneSearch downloadOptions) []

/-- The candidate list the loop computes for a given alias: the available
products among the `download-options` of the alias's scene-search entity
ids. It depends only on the alias because the oracles do. -/
def datasetDownloads (sceneSearch : String → SceneSearchResult)
    (downloadOptions : String → List String → List Product) (a : String) :
    List Candidate :=
  availableDownloads (downloadOptions a (sceneSearch a).resultEntityIds)

/-! ## Download orchestration (`get_download_urls`, download.py lines 240-291;
identically `DownloadEORS.get_download_urls`, EROS_Download.py
lines 171-223)

`download-retrieve` responses are an oracle: for dataset number `d`
(0-based position in the iteration order), `retrieve d i` is the
`available` list of the `i`-th retrieve call issued for that dataset
(`i = 0` is the call right after `download-request`; `i ≥ 1` are the
calls inside the `while` loop, each preceded by a 30-second sleep). The
`download-request` response is bound to `request_results` and never used,
so it is not modelled. -/

/-- One entry of a `download-retrieve` response's `available` list. -/
structure AvailEntry where
  downloadId : String
  entityId : String
  url : String
  deriving Repr, DecidableEq

/-- The `{entityId, url}` record stored per download id. -/
structure ReadyDownload where
  entityId : String
  url : String
  deriving Repr, DecidableEq

/-- The `ready_downloads_info` dict: download id → ReadyDownload. -/
abbrev ReadyDownloadsMap := List (String × ReadyDownload)

/-- The `info` dict built from one `available` entry. -/
def entryInfo (e : AvailEntry) : ReadyDownload :=
  { entityId := e.entityId, url := e.url }

/-- The merge right after the first `download-retrieve` call of a dataset
(download.py lines 273-276): plain dict assignment for every entry, with
no membership check. -/
def mergeFirst (m : ReadyDownloadsMap) (avail : List AvailEntry) :
    ReadyDownloadsMap :=
  avail.foldl (fun acc d => ainsert acc d.downloadId (entryInfo d)) m

/-- The merge inside the polling `while` loop (download.py lines 284-288):
dict assignment guarded by `if download['downloadId'] not in
ready_downloads_info`. -/
def mergeLoop (m : ReadyDownloadsMap) (avail : List AvailEntry) :
    ReadyDownloadsMap :=
  avail.foldl
    (fun acc d =>
      if (alookup acc d.downloadId).isSome then acc
      else ainsert acc d.downloadId (entryInfo d))
    m

/-- The `while len(ready_downloads_info) < requested_downloads_count` loop
(download.py lines 279-288). The source loop has no bound; `fuel` caps the
number of iterations the embedding will attempt, and `none` means the
source loop would still be running after `fuel` iterations. On `some
(m, iters)`, `iters` is the number of loop iterations executed, each of
which slept 30 seconds and issued one further `download-retrieve` call. -/
def pollLoop : Nat → (Nat → List AvailEntry) → Nat → ReadyDownloadsMap →
    Option (ReadyDownloadsMap × Nat)
  | 0, _, _, _ => none
  | fuel + 1, retrieve, count, m =>
    if m.length < count then
      match pollLoop fuel (fun i => retrieve (i + 1)) count (mergeLoop m (retrieve 0)) with
      | none => none
      | some (m', iters) => some (m', iters + 1)
    else some (m, 0)

/-- The body of `get_download_urls` for one dataset: `download-request`
(response unused), first `download-retrieve` merged without a membership
check, then the polling loop. Returns the updated map and the number of
loop iterations. -/
def processDataset (fuel : Nat) (retrieve : Nat → List AvailEntry)
    (requested_downloads_count : Nat) (m : ReadyDownloadsMap) :
    Option (ReadyDownloadsMap × Nat) :=
  pollLoop fuel (fun i => retrieve (i + 1)) requested_downloads_count
    (mergeFirst m (retrieve 0))

/-- The dataset iteration of `get_download_urls`: `ready_downloads_info`
is initialised once, before the loop over datasets, and threaded through
every dataset; it is never cleared. `d` is the 0-based dataset index into
the retrieve oracle. -/
def getDownloadUrlsGo (fuel : Nat) (retrieve : Nat → Nat → List AvailEntry) :
    Nat → List (String × List Candidate) → ReadyDownloadsMap →
    Option ReadyDownloadsMap
  | _, [], m => some m
  | d, (_, downloads) :: rest, m =>
    match processDataset fuel (retrieve d) downloads.length m with
    | none => none
    | some (m', _) => getDownloadUrlsGo fuel retrieve (d + 1) rest m'

/-- Embedding of `get_download_urls`: start from the empty map and process
each dataset's candidate list in order. -/
def get_download_urls (fuel : Nat)
    (sence_to_download : List (String × List Candidate))
    (retrieve : Nat → Nat → List AvailEntry) : Option ReadyDownloadsMap :=
  getDownloadUrlsGo fuel retrieve 0 sence_to_download []

/-! ## File fetch (`download_to_file`, download.py lines 79-104, and the
download loop of the main script, download.py lines 324-330)

The state records the file names present in the data directory and the
number of network body transfers (`requests.get` streams) performed.
`download_to_file` issues a HEAD request for the size, then
unconditionally streams the body to disk: it contains no existence check.
The main script computes `existing_entities = os.listdir(DATA_PATH)` once,
before its loop, and skips a download whose `entityId + '.zip'` is in that
snapshot. -/

/-- Data-directory contents plus a count of body transfers performed. -/
structure FetchState where
  files : List String
  transfers : Nat
  deriving Repr, DecidableEq

/-- Embedding of `download_to_file`: always streams the body (one
transfer) and writes `file_name`; returns the written path. -/
def download_to_file (s : FetchState) (file_name : String) :
    FetchState × String :=
  ({ files := if file_name ∈ s.files then s.files else s.files ++ [file_name],
     transfers := s.transfers + 1 },
   file_name)

/-- One iteration of the main script's download loop: skip when
`entityId + '.zip'` is in the directory listing taken before the loop,
otherwise call `download_to_file`. -/
def mainLoopStep (existing_entities : List String) (s : FetchState)
    (download : ReadyDownload) : FetchState :=
  let file_name := download.entityId ++ ".zip"
  if file_name ∈ existing_entities then s
  else (download_to_file s file_name).1

/-- Embedding of the main script's download loop (download.py lines
324-330): `os.listdir` is evaluated once, before the loop, and the
snapshot drives every skip decision. -/
def mainDownloadLoop (downloads : List ReadyDownload) (s₀ : FetchState) :
    FetchState :=
  downloads.foldl (mainLoopStep s₀.files) s₀

/-- A `download-retrieve` oracle whose item becomes ready only at call
index `k` of the polling loop: every earlier call returns an empty
`available` list. Used to exhibit runs of the polling loop with any
number of iterations. -/
def stuckThen (k : Nat) : Nat → List AvailEntry :=
  fun i => if k ≤ i then [{ downloadId := "D1", entityId := "E1", url := "u1" }] else []

/-! ## Theorems -/

/-! ### Association-list lemmas (Python dict semantics) -/

/-- Overwriting an existing key in place stores the new value. -/
theorem alookup_map_overwrite {α : Type} (m : List (String × α)) (k : String) (v : α)
    (h : (alookup m k).isSome) :
    alookup (m.map (fun p => if p.1 = k then (k, v) else p)) k = some v := by
  induction m with
  | nil => simp [alookup] at h
  | cons p rest ih =>
    simp only [List.map_cons]
    by_cases hk : p.1 = k
    · rw [show (if p.1 = k then (k, v) else p) = (k, v) from if_pos hk]
      simp [alookup]
    · rw [show (if p.1 = k then (k, v) else p) = p from if_neg hk]
      simp only [alookup, hk, if_false] at h ⊢
      exact ih h

/-- Overwriting key `k` in place does not change lookups at other keys. -/
theorem alookup_map_overwrite_ne {α : Type} (m : List (String × α)) (k : String) (v : α)
    (n : String) (hne : n ≠ k) :
    alookup (m.map (fun p => if p.1 = k then (k, v) else p)) n = alookup m n := by
  induction m with
  | nil => simp [alookup]
  | cons p rest ih =>
    simp only [List.map_cons]
    by_cases hk : p.1 = k
    · rw [show (if p.1 = k then (k, v) else p) = (k, v) from if_pos hk]
      have h1 : k ≠ n := fun hh => hne hh.symm
      have h2 : p.1 ≠ n := by rw [hk]; exact h1
      simp only [alookup, h1, h2, if_false]
      exact ih
    · rw [show (if p.1 = k then (k, v) else p) = p from if_neg hk]
      by_cases hn : p.1 = n <;> simp only [alookup, hn, if_true, if_false]
      exact ih

/-- Appending entries does not change a lookup that already succeeds. -/
theorem alookup_append_of_isSome {α : Type} (m l : List (String × α)) (k : String)
    (h : (alookup m k).isSome) :
    alookup (m ++ l) k = alookup m k := by
  induction m with
  | nil => simp [alookup] at h
  | cons p rest ih =>
    by_cases hk : p.1 = k
    · simp only [List.cons_append, alookup, hk, if_true]
    · simp only [alookup, hk, if_false] at h
      simp only [List.cons_append, alookup, hk, if_false]
      exact ih h

/-- A lookup at a key other than the appended one is unchanged. -/
theorem alookup_append_ne {α : Type} (m : List (String × α)) (k : String) (v : α)
    (n : String) (hne : n ≠ k) :
    alookup (m ++ [(k, v)]) n = alookup m n := by
  induction m with
  | nil =>
    have : k ≠ n := fun hh => hne hh.symm
    simp [alookup, this]
  | cons p rest ih =>
    by_cases hn : p.1 = n <;>
      simp only [List.cons_append, alookup, hn, if_true, if_false]
    exact ih

/-- Appending a fresh key makes it found with the appended value. -/
theorem alookup_append_self_of_none {α : Type} (m : List (String × α)) (k : String)
    (v : α) (h : alookup m k = none) :
    alookup (m ++ [(k, v)]) k = some v := by
  induction m with
  | nil => simp [alookup]
  | cons p rest ih =>
    by_cases hk : p.1 = k
    · simp [alookup, hk] at h
    · simp only [alookup, hk, if_false] at h
      simp only [List.cons_append, alookup, hk, if_false]
      exact ih h

/-- Dict assignment stores the assigned value at the assigned key. -/
theorem alookup_ainsert_self {α : Type} (m : List (String × α)) (k : String) (v : α) :
    alookup (ainsert m k v) k = some v := by
  unfold ainsert
  cases hm : alookup m k with
  | none =>
    simp only [hm, Option.isSome_none, Bool.false_eq_true, if_false]
    exact alookup_append_self_of_none m k v hm
  | some w =>
    have h : (alookup m k).isSome := by rw [hm]; rfl
    rw [if_pos (show ((some w : Option α).isSome = true) from rfl)]
    exact alookup_map_overwrite m k v h

/-- Dict assignment does not change lookups at other keys. -/
theorem alookup_ainsert_ne {α : Type} (m : List (String × α)) (k : String) (v : α)
    (n : String) (hne : n ≠ k) :
    alookup (ainsert m k v) n = alookup m n := by
  unfold ainsert
  cases hm : alookup m k with
  | none =>
    simp only [hm, Option.isSome_none, Bool.false_eq_true, if_false]
    exact alookup_append_ne m k v n hne
  | some w =>
    have h : (alookup m k).isSome := by rw [hm]; rfl
    rw [if_pos (show ((some w : Option α).isSome = true) from rfl)]
    exact alookup_map_overwrite_ne m k v n hne

/-! ### Dataset discovery -/

/-- Characterisation of the `get_avaliabole_datasets` fold: a name is
bound to the head of its search result when some processed candidate name
equals it and its search result is nonempty; otherwise it is looked up in
the accumulator. -/
theorem gads_foldl_lookup {α : Type} (search : String → List α) :
    ∀ (names : List String) (acc : List (String × α)) (n : String),
      ((n ∈ names ∧ search n ≠ []) →
        alookup (names.foldl
          (fun datasets dataset =>
            match search dataset with
            | [] => datasets
            | first :: _ => ainsert datasets dataset first) acc) n = (search n).head?) ∧
      (¬ (n ∈ names ∧ search n ≠ []) →
        alookup (names.foldl
          (fun datasets dataset =>
            match search dataset with
            | [] => datasets
            | first :: _ => ainsert datasets dataset first) acc) n = alookup acc n) := by
  intro names
  induction names with
  | nil =>
    intro acc n
    exact ⟨fun h => absurd h.1 (List.not_mem_nil n), fun _ => rfl⟩
  | cons name rest ih =>
    intro acc n
    rw [List.foldl_cons]
    constructor
    · intro ⟨hmem, hne⟩
      by_cases hr : n ∈ rest
      · exact (ih _ n).1 ⟨hr, hne⟩
      · have hn : n = name := by
          rcases List.mem_cons.mp hmem with h | h
          · exact h
          · exact absurd h hr
        subst hn
        rw [(ih _ n).2 (fun hc => hr hc.1)]
        cases hs : search n with
        | nil => exact absurd hs hne
        | cons x xs => simp [hs, alookup_ainsert_self]
    · intro hc
      have hcr : ¬ (n ∈ rest ∧ search n ≠ []) :=
        fun hr => hc ⟨List.mem_cons_of_mem _ hr.1, hr.2⟩
      rw [(ih _ n).2 hcr]
      cases hs : search name with
      | nil => rfl
      | cons x xs =>
        have hn : n ≠ name := by
          intro h
          subst h
          exact hc ⟨List.mem_cons_self n rest, by simp [hs]⟩
        exact alookup_ainsert_ne acc name x n hn

/-- C6: for every candidate name, zero `dataset-search` matches leave the
name absent from the returned mapping (and raise no error), and one or
more matches bind the name to exactly the first match. -/
theorem c6_first_match_policy {α : Type} (dataset_names : List String)
    (search : String → List α) (n : String) (hn : n ∈ dataset_names) :
    (search n = [] →
      alookup (get_avaliabole_datasets dataset_names search) n = none) ∧
    (∀ x rest, search n = x :: rest →
      alookup (get_avaliabole_datasets dataset_names search) n = some x) := by
  constructor
  · intro hs
    rw [get_avaliabole_datasets,
      (gads_foldl_lookup search dataset_names [] n).2 (fun hc => hc.2 hs)]
    rfl
  · intro x rest hs
    rw [get_avaliabole_datasets,
      (gads_foldl_lookup search dataset_names [] n).1 ⟨hn, by simp [hs]⟩, hs]
    rfl

/-- Witness for C6 on a concrete search oracle: name `A` has no match and
is omitted; name `B` has two matches and is bound to the first. -/
theorem c6_first_match_policy_witness :
    alookup (get_avaliabole_datasets ["A", "B"]
      (fun n => if n = "B" then [10, 20] else ([] : List Nat))) "A" = none ∧
    alookup (get_avaliabole_datasets ["A", "B"]
      (fun n => if n = "B" then [10, 20] else ([] : List Nat))) "B" = some 10 :=
  ⟨(c6_first_match_policy ["A", "B"] _ "A" (by decide)).1 (by decide),
   (c6_first_match_policy ["A", "B"] _ "B" (by decide)).2 10 [20] (by decide)⟩

/-! ### Scene discovery -/

/-- Lookup after one `gsdStep`: the step binds the record's alias to that
alias's candidate list exactly when the scene search returned records and
the filtered list is nonempty; lookups at other keys are unchanged. -/
theorem alookup_gsdStep (sceneSearch : String → SceneSearchResult)
    (downloadOptions : String → List String → List Product)
    (acc : List (String × List Candidate)) (p : String × DatasetRecord) (a : String) :
    alookup (gsdStep sceneSearch downloadOptions acc p) a =
      if p.2.datasetAlias = a ∧ (sceneSearch a).recordsReturned > 0 ∧
          datasetDownloads sceneSearch downloadOptions a ≠ [] then
        some (datasetDownloads sceneSearch downloadOptions a)
      else alookup acc a := by
  simp only [gsdStep, datasetDownloads]
  by_cases ha : p.2.datasetAlias = a
  · subst ha
    split_ifs with h1 h2 h3 <;>
      first
        | rfl
        | exact alookup_ainsert_self acc p.2.datasetAlias _
        | tauto
  · have hc : ¬ (p.2.datasetAlias = a ∧ (sceneSearch a).recordsReturned > 0 ∧
        availableDownloads (downloadOptions a (sceneSearch a).resultEntityIds) ≠ []) :=
      fun hcc => ha hcc.1
    rw [if_neg hc]
    split_ifs with h1 h2
    · exact alookup_ainsert_ne acc p.2.datasetAlias _ a (fun h => ha h.symm)
    · rfl
    · rfl

/-- Lookup across the whole `get_sences_for_datasets` fold: an alias is
bound to its candidate list exactly when some processed record carries
that alias, its scene search returned records, and its filtered candidate
list is nonempty; otherwise the accumulator decides. -/
theorem gsd_foldl_lookup (sceneSearch : String → SceneSearchResult)
    (downloadOptions : String → List String → List Product) :
    ∀ (datasets : List (String × DatasetRecord))
      (acc : List (String × List Candidate)) (a : String),
      ((∃ p ∈ datasets, p.2.datasetAlias = a) ∧
          (sceneSearch a).recordsReturned > 0 ∧
          datasetDownloads sceneSearch downloadOptions a ≠ [] →
        alookup (datasets.foldl (gsdStep sceneSearch downloadOptions) acc) a =
          some (datasetDownloads sceneSearch downloadOptions a)) ∧
      (¬ ((∃ p ∈ datasets, p.2.datasetAlias = a) ∧
          (sceneSearch a).recordsReturned > 0 ∧
          datasetDownloads sceneSearch downloadOptions a ≠ []) →
        alookup (datasets.foldl (gsdStep sceneSearch downloadOptions) acc) a =
          alookup acc a) := by
  intro datasets
  induction datasets with
  | nil =>
    intro acc a
    exact ⟨fun h => absurd h.1 (by simp), fun _ => rfl⟩
  | cons p rest ih =>
    intro acc a
    rw [List.foldl_cons]
    constructor
    · intro ⟨⟨q, hq, halias⟩, hr, hd⟩
      by_cases hrest : ∃ q' ∈ rest, q'.2.datasetAlias = a
      · exact (ih _ a).1 ⟨hrest, hr, hd⟩
      · have hp : p.2.datasetAlias = a := by
          rcases List.mem_cons.mp hq with h | h
          · exact h ▸ halias
          · exact absurd ⟨q, h, halias⟩ hrest
        rw [(ih _ a).2 (fun hc => hrest hc.1), alookup_gsdStep]
        rw [if_pos ⟨hp, hr, hd⟩]
    · intro hc
      have hcr : ¬ ((∃ q' ∈ rest, q'.2.datasetAlias = a) ∧
          (sceneSearch a).recordsReturned > 0 ∧
          datasetDownloads sceneSearch downloadOptions a ≠ []) := by
        intro ⟨⟨q, hq, halias⟩, hr, hd⟩
        exact hc ⟨⟨q, List.mem_cons_of_mem _ hq, halias⟩, hr, hd⟩
      rw [(ih _ a).2 hcr, alookup_gsdStep]
      rw [if_neg (fun hcp => hc ⟨⟨p, List.mem_cons_self p rest, hcp.1⟩, hcp.2⟩)]

/-- C7: a `{entityId, productId}` candidate is in the filtered output iff
it comes from a product whose `available` flag is true; the output
preserves the relative order of the options list; and an alias whose
filtered candidate list is empty is absent from the returned mapping,
while a processed alias with records and a nonempty filtered list is
bound to exactly that list. -/
theorem c7_scene_filtering :
    (∀ (options : List Product) (c : Candidate),
      c ∈ availableDownloads options ↔
        ∃ p, p ∈ options ∧ p.available = true ∧
          c = { entityId := p.entityId, productId := p.id }) ∧
    (∀ options : List Product,
      (availableDownloads options).Sublist
        (options.map (fun p => { entityId := p.entityId, productId := p.id }))) ∧
    (∀ (datasets : List (String × DatasetRecord))
      (sceneSearch : String → SceneSearchResult)
      (downloadOptions : String → List String → List Product) (a : String),
      datasetDownloads sceneSearch downloadOptions a = [] →
      alookup (get_sences_for_datasets datasets sceneSearch downloadOptions) a = none) ∧
    (∀ (datasets : List (String × DatasetRecord))
      (sceneSearch : String → SceneSearchResult)
      (downloadOptions : String → List String → List Product) (a : String),
      (∃ p ∈ datasets, p.2.datasetAlias = a) →
      (sceneSearch a).recordsReturned > 0 →
      datasetDownloads sceneSearch downloadOptions a ≠ [] →
      alookup (get_sences_for_datasets datasets sceneSearch downloadOptions) a =
        some (datasetDownloads sceneSearch downloadOptions a)) := by
  refine ⟨?_, ?_, ?_, ?_⟩
  · intro options c
    simp only [availableDownloads, List.mem_map, List.mem_filter]
    constructor
    · rintro ⟨p, ⟨hp, hav⟩, rfl⟩
      exact ⟨p, hp, hav, rfl⟩
    · rintro ⟨p, hp, hav, rfl⟩
      exact ⟨p, ⟨hp, hav⟩, rfl⟩
  · intro options
    exact (List.filter_sublist options).map _
  · intro datasets sceneSearch downloadOptions a hd
    rw [get_sences_for_datasets,
      (gsd_foldl_lookup sceneSearch downloadOptions datasets [] a).2
        (fun hc => hc.2.2 hd)]
    rfl
  · intro datasets sceneSearch downloadOptions a hmem hr hd
    rw [get_sences_for_datasets]
    exact (gsd_foldl_lookup sceneSearch downloadOptions datasets [] a).1 ⟨hmem, hr, hd⟩

/-- Witness for C7 on concrete oracles: the alias with an available
product is bound to exactly that candidate; an alias whose options are
all filtered away is absent. -/
theorem c7_scene_filtering_witness :
    alookup (get_sences_for_datasets
      [("WV1", { datasetAlias := "wv1", collectionName := "WorldView-1" })]
      (fun _ => { recordsReturned := 2, resultEntityIds := ["S1", "S2"] })
      (fun a _ => if a = "wv1" then
        [{ entityId := "S1", id := "P1", available := true },
         { entityId := "S2", id := "P2", available := false }]
        else [])) "wv1" = some [{ entityId := "S1", productId := "P1" }] ∧
    alookup (get_sences_for_datasets
      [("WV1", { datasetAlias := "wv1", collectionName := "WorldView-1" })]
      (fun _ => { recordsReturned := 2, resultEntityIds := ["S1", "S2"] })
      (fun a _ => if a = "wv1" then
        [{ entityId := "S1", id := "P1", available := true },
         { entityId := "S2", id := "P2", available := false }]
        else [])) "other" = none :=
  ⟨c7_scene_filtering.2.2.2 _ _ _ "wv1"
      ⟨_, List.mem_cons_self _ _, rfl⟩ (by decide) (by decide),
   c7_scene_filtering.2.2.1 _ _ _ "other" (by decide)⟩

/-- C2: `send_request` aborts the run if and only if the parsed body
carries a non-null `errorCode`, or the HTTP status is 400, 401 or 404, or
the body cannot be parsed into the envelope; in every other case it
returns the envelope's `data` field. -/
theorem c2_send_request_fatal_iff {α : Type} (resp : HttpResponse α) :
    ((send_request resp).isExit ↔ fatalResponse resp) ∧
    (∀ env, resp.body = some env → ¬ fatalResponse resp →
      send_request resp = .ok env.data true) := by
  obtain ⟨status, body⟩ := resp
  cases body with
  | none =>
    refine ⟨by simp [send_request, ReqResult.isExit, fatalResponse], ?_⟩
    intro env h
    simp at h
  | some env =>
    constructor
    · by_cases hec : env.errorCode = none
      · by_cases h404 : status = 404 <;> by_cases h401 : status = 401 <;>
          by_cases h400 : status = 400 <;>
          simp [send_request, ReqResult.isExit, fatalResponse, hec, h404, h401, h400]
      · simp [send_request, ReqResult.isExit, fatalResponse, hec]
    · intro env' henv hfatal
      injection henv with henv
      subst henv
      have hec : env.errorCode = none := by
        by_contra hc
        exact hfatal (Or.inr (Or.inl ⟨env, rfl, hc⟩))
      have h400 : status ≠ 400 := fun h => hfatal (Or.inr (Or.inr (Or.inl h)))
      have h401 : status ≠ 401 := fun h => hfatal (Or.inr (Or.inr (Or.inr (Or.inl h))))
      have h404 : status ≠ 404 := fun h => hfatal (Or.inr (Or.inr (Or.inr (Or.inr h))))
      simp [send_request, hec, h400, h401, h404]

/-- Witness for C2: a parseable 200 response with null `errorCode` is not
fatal and `send_request` returns its `data` field. -/
theorem c2_send_request_fatal_iff_witness :
    send_request ({ status_code := 200,
                    body := some { errorCode := none, errorMessage := "", data := "tok" } } :
                  HttpResponse String) = .ok "tok" true :=
  (c2_send_request_fatal_iff _).2 _ rfl (by simp [fatalResponse])

/-- C9 counterexample: on the non-null-`errorCode` abort path the
connection is not closed before the run aborts (`sys.exit` raises
`SystemExit`, which the `except Exception` handler does not catch, and the
`response.close()` at download.py line 75 is never reached), refuting the
claim that the response is closed on every path. -/
theorem c9_close_counterexample :
    send_request ({ status_code := 200,
                    body := some { errorCode := some "AUTH_INVALID",
                                   errorMessage := "m", data := "d" } } :
                  HttpResponse String) = .exit false := rfl

/-- C9 amended: the connection is closed before `send_request` ends on the
success path and on the unparsable-body path, but on the abort paths
triggered by a non-null `errorCode` or by HTTP status 400/401/404 the run
aborts without the connection having been closed. -/
theorem c9_close_paths {α : Type} :
    (∀ resp : HttpResponse α, ∀ env, resp.body = some env →
        env.errorCode = none →
        resp.status_code ≠ 400 → resp.status_code ≠ 401 → resp.status_code ≠ 404 →
        (send_request resp).closed = true) ∧
    (∀ resp : HttpResponse α, resp.body = none →
        (send_request resp).closed = true) ∧
    (∀ resp : HttpResponse α, ∀ env, resp.body = some env →
        (env.errorCode ≠ none ∨ resp.status_code = 400 ∨ resp.status_code = 401 ∨
          resp.status_code = 404) →
        send_request resp = .exit false) := by
  refine ⟨?_, ?_, ?_⟩
  · intro resp env henv hec h400 h401 h404
    obtain ⟨status, body⟩ := resp
    simp at henv
    subst henv
    simp_all [send_request, ReqResult.closed]
  · intro resp h
    obtain ⟨status, body⟩ := resp
    simp at h
    subst h
    simp [send_request, ReqResult.closed]
  · intro resp env henv h
    obtain ⟨status, body⟩ := resp
    simp at henv
    subst henv
    rcases h with hec | h400 | h401 | h404
    · simp [send_request, hec]
    · subst h400
      by_cases hec : env.errorCode = none <;> simp [send_request, hec]
    · subst h401
      by_cases hec : env.errorCode = none <;> simp [send_request, hec]
    · subst h404
      by_cases hec : env.errorCode = none <;> simp [send_request, hec]

/-- Witness for the amended C9 at concrete responses: success path closed,
unparsable-body path closed, 404 path aborts unclosed. -/
theorem c9_close_paths_witness :
    (send_request ({ status_code := 200,
                     body := some { errorCode := none, errorMessage := "", data := "d" } } :
                   HttpResponse String)).closed = true ∧
    (send_request ({ status_code := 500, body := none } :
                   HttpResponse String)).closed = true ∧
    send_request ({ status_code := 404,
                    body := some { errorCode := none, errorMessage := "", data := "d" } } :
                  HttpResponse String) = .exit false :=
  ⟨(c9_close_paths.1 _ _ rfl rfl (by decide) (by decide) (by decide)),
   (c9_close_paths.2.1 _ rfl),
   (c9_close_paths.2.2 _ _ rfl (Or.inr (Or.inr (Or.inr rfl))))⟩

/-- C10: only 400, 401 and 404 are fatal HTTP statuses; a response whose
body parses with a null `errorCode` and any other status (for example 500
or 503) is returned as a success, yielding the `data` field. -/
theorem c10_only_400_401_404_fatal {α : Type} (status : Nat) (env : Envelope α)
    (hec : env.errorCode = none)
    (h400 : status ≠ 400) (h401 : status ≠ 401) (h404 : status ≠ 404) :
    send_request { status_code := status, body := some env } = .ok env.data true := by
  simp [send_request, hec, h400, h401, h404]

/-- Witness for C10: an HTTP 500 response with a parseable body and null
`errorCode` is treated as success. -/
theorem c10_only_400_401_404_fatal_witness :
    send_request ({ status_code := 500,
                    body := some { errorCode := none, errorMessage := "", data := "d" } } :
                  HttpResponse String) = .ok "d" true :=
  c10_only_400_401_404_fatal 500 _ rfl (by decide) (by decide) (by decide)

/-! ### Download orchestration -/

/-- Stepping rule of the polling loop when the map is still short of the
requested count: sleep, retrieve, merge, and continue with one more
iteration on the books. -/
theorem pollLoop_succ_of_lt (fuel : Nat) (retrieve : Nat → List AvailEntry)
    (count : Nat) (m : ReadyDownloadsMap) (h : m.length < count) :
    pollLoop (fuel + 1) retrieve count m =
      match pollLoop fuel (fun i => retrieve (i + 1)) count (mergeLoop m (retrieve 0)) with
      | none => none
      | some (m', iters) => some (m', iters + 1) := by
  simp only [pollLoop, h, if_true]

/-- Stepping rule of the polling loop when the map has reached the
requested count: the loop body never runs. -/
theorem pollLoop_succ_of_ge (fuel : Nat) (retrieve : Nat → List AvailEntry)
    (count : Nat) (m : ReadyDownloadsMap) (h : ¬ m.length < count) :
    pollLoop (fuel + 1) retrieve count m = some (m, 0) := by
  simp only [pollLoop, h, if_false]

/-- C1 counterexample: with the same label reused for every dataset, the
retrieve response of the second dataset can carry a download id already in
the map; the merge after the second dataset's first retrieve call
(download.py lines 273-276) has no membership check and overwrites the
existing entry, so the value at key `D1` changes from
`{E-A, u1}` to `{E-B, u2}`, refuting the claim for the first retrieve
call. -/
theorem c1_first_merge_overwrites :
    get_download_urls 1 [("ds1", [{ entityId := "E-A", productId := "P" }])]
      (fun d _ => if d = 0 then [{ downloadId := "D1", entityId := "E-A", url := "u1" }]
        else [{ downloadId := "D1", entityId := "E-B", url := "u2" }]) =
      some [("D1", { entityId := "E-A", url := "u1" })] ∧
    get_download_urls 1
      [("ds1", [{ entityId := "E-A", productId := "P" }]),
       ("ds2", [{ entityId := "E-B", productId := "P" }])]
      (fun d _ => if d = 0 then [{ downloadId := "D1", entityId := "E-A", url := "u1" }]
        else [{ downloadId := "D1", entityId := "E-B", url := "u2" }]) =
      some [("D1", { entityId := "E-B", url := "u2" })] :=
  ⟨rfl, rfl⟩

/-- C1 amended: the merge performed inside the polling `while` loop
(download.py lines 284-288) is an idempotent union: a download id already
present in the map keeps exactly its previous `{entityId, url}` value, for
every map state and every retrieve result. (The merge after the *first*
retrieve call of a dataset assigns unconditionally and can overwrite.) -/
theorem c1_loop_merge_idempotent (m : ReadyDownloadsMap) (avail : List AvailEntry)
    (k : String) (h : (alookup m k).isSome) :
    alookup (mergeLoop m avail) k = alookup m k := by
  induction avail generalizing m with
  | nil => rfl
  | cons d rest ih =>
    have step_eq : mergeLoop m (d :: rest) =
        mergeLoop (if (alookup m d.downloadId).isSome then m
          else ainsert m d.downloadId (entryInfo d)) rest := rfl
    rw [step_eq]
    by_cases hd : (alookup m d.downloadId).isSome
    · rw [if_pos hd]
      exact ih m h
    · rw [if_neg hd]
      have hne : k ≠ d.downloadId := fun he => hd (he ▸ h)
      have hpres : alookup (ainsert m d.downloadId (entryInfo d)) k = alookup m k :=
        alookup_ainsert_ne m d.downloadId (entryInfo d) k hne
      have h' : (alookup (ainsert m d.downloadId (entryInfo d)) k).isSome := by
        rw [hpres]; exact h
      rw [ih _ h', hpres]

/-- Witness for the amended C1: an id already mapped keeps its value
across a loop merge whose response reuses the id. -/
theorem c1_loop_merge_idempotent_witness :
    alookup (mergeLoop [("D1", { entityId := "E-A", url := "u1" })]
      [{ downloadId := "D1", entityId := "E-B", url := "u2" }]) "D1" =
      alookup [("D1", { entityId := "E-A", url := "u1" })] "D1" :=
  c1_loop_merge_idempotent _ _ "D1" (by decide)

/-- C3: for a single dataset of `N` requested candidates, if the merges
leave the map at sizes 0, 2 and `N` (with `2 < N`) after the initial
retrieve and the two loop retrieves, the loop runs exactly 2 iterations
(each preceded by a 30-second wait) and terminates with the `N`-entry
map. -/
theorem c3_polling_two_iterations (f N : Nat) (r : Nat → List AvailEntry)
    (hN : 2 < N)
    (h0 : (mergeFirst [] (r 0)).length = 0)
    (h1 : (mergeLoop (mergeFirst [] (r 0)) (r 1)).length = 2)
    (h2 : (mergeLoop (mergeLoop (mergeFirst [] (r 0)) (r 1)) (r 2)).length = N) :
    processDataset (f + 3) r N [] =
      some (mergeLoop (mergeLoop (mergeFirst [] (r 0)) (r 1)) (r 2), 2) := by
  have h0N : (mergeFirst [] (r 0)).length < N := by omega
  have h1N : (mergeLoop (mergeFirst [] (r 0)) (r 1)).length < N := by omega
  have h2N : ¬ (mergeLoop (mergeLoop (mergeFirst [] (r 0)) (r 1)) (r 2)).length < N := by
    omega
  show pollLoop (f + 3) (fun i => r (i + 1)) N (mergeFirst [] (r 0)) = _
  rw [show f + 3 = (f + 1 + 1) + 1 from rfl,
    pollLoop_succ_of_lt _ _ _ _ h0N]
  have e1 : mergeLoop (mergeFirst [] (r 0)) ((fun i => r (i + 1)) 0) =
      mergeLoop (mergeFirst [] (r 0)) (r 1) := rfl
  rw [e1, pollLoop_succ_of_lt _ _ _ _ h1N]
  have e2 : mergeLoop (mergeLoop (mergeFirst [] (r 0)) (r 1))
        ((fun i => (fun j => r (j + 1)) (i + 1)) 0) =
      mergeLoop (mergeLoop (mergeFirst [] (r 0)) (r 1)) (r 2) := rfl
  rw [e2, pollLoop_succ_of_ge _ _ _ _ h2N]

/-- Witness for C3 at `N = 3` with concrete retrieve responses of
cumulative sizes 0, 2, 3. -/
theorem c3_polling_two_iterations_witness :
    processDataset 3
      (fun i => if i = 0 then []
        else if i = 1 then
          [{ downloadId := "D1", entityId := "E1", url := "u1" },
           { downloadId := "D2", entityId := "E2", url := "u2" }]
        else
          [{ downloadId := "D1", entityId := "E1", url := "u1" },
           { downloadId := "D2", entityId := "E2", url := "u2" },
           { downloadId := "D3", entityId := "E3", url := "u3" }]) 3 [] =
      some (mergeLoop (mergeLoop (mergeFirst []
        ((fun i : Nat => if i = 0 then []
          else if i = 1 then
            [{ downloadId := "D1", entityId := "E1", url := "u1" },
             { downloadId := "D2", entityId := "E2", url := "u2" }]
          else
            [{ downloadId := "D1", entityId := "E1", url := "u1" },
             { downloadId := "D2", entityId := "E2", url := "u2" },
             { downloadId := "D3", entityId := "E3", url := "u3" }]) 0))
        ((fun i : Nat => if i = 0 then []
          else if i = 1 then
            [{ downloadId := "D1", entityId := "E1", url := "u1" },
             { downloadId := "D2", entityId := "E2", url := "u2" }]
          else
            [{ downloadId := "D1", entityId := "E1", url := "u1" },
             { downloadId := "D2", entityId := "E2", url := "u2" },
             { downloadId := "D3", entityId := "E3", url := "u3" }]) 1))
        ((fun i : Nat => if i = 0 then []
          else if i = 1 then
            [{ downloadId := "D1", entityId := "E1", url := "u1" },
             { downloadId := "D2", entityId := "E2", url := "u2" }]
          else
            [{ downloadId := "D1", entityId := "E1", url := "u1" },
             { downloadId := "D2", entityId := "E2", url := "u2" },
             { downloadId := "D3", entityId := "E3", url := "u3" }]) 2), 2) :=
  c3_polling_two_iterations 0 3 _ (by decide) (by decide) (by decide) (by decide)

/-- C4: across two datasets the ready-downloads map is threaded through,
never cleared — the second dataset's processing starts from the first
dataset's final map — and the polling loop is entered exactly when the
cumulative map size (after the dataset's first retrieve merge) is
strictly below that dataset's own candidate count: at or above the count
the loop runs zero iterations, below it every terminating run has at
least one iteration. -/
theorem c4_cumulative_count_comparison :
    (∀ (fuel : Nat) (n₁ n₂ : String) (c₁ c₂ : List Candidate)
        (retrieve : Nat → Nat → List AvailEntry),
      get_download_urls fuel [(n₁, c₁), (n₂, c₂)] retrieve =
        match processDataset fuel (retrieve 0) c₁.length [] with
        | none => none
        | some (m₁, _) =>
          match processDataset fuel (retrieve 1) c₂.length m₁ with
          | none => none
          | some (m₂, _) => some m₂) ∧
    (∀ (fuel : Nat) (retrieve : Nat → List AvailEntry) (count : Nat)
        (m : ReadyDownloadsMap),
      ¬ (mergeFirst m (retrieve 0)).length < count →
      processDataset (fuel + 1) retrieve count m = some (mergeFirst m (retrieve 0), 0)) ∧
    (∀ (fuel : Nat) (retrieve : Nat → List AvailEntry) (count : Nat)
        (m m' : ReadyDownloadsMap) (iters : Nat),
      (mergeFirst m (retrieve 0)).length < count →
      processDataset fuel retrieve count m = some (m', iters) →
      1 ≤ iters) := by
  refine ⟨?_, ?_, ?_⟩
  · intro fuel n₁ n₂ c₁ c₂ retrieve
    simp only [get_download_urls, getDownloadUrlsGo]
  · intro fuel retrieve count m h
    exact pollLoop_succ_of_ge fuel _ count _ h
  · intro fuel retrieve count m m' iters hlt hproc
    cases fuel with
    | zero => exact absurd hproc (by simp [processDataset, pollLoop])
    | succ n =>
      rw [processDataset, pollLoop_succ_of_lt n _ count _ hlt] at hproc
      cases hinner : pollLoop n (fun i => retrieve (i + 1 + 1)) count
          (mergeLoop (mergeFirst m (retrieve 0)) (retrieve (0 + 1))) with
      | none => rw [hinner] at hproc; exact absurd hproc (by simp)
      | some p =>
        obtain ⟨m'', it⟩ := p
        rw [hinner] at hproc
        have : it + 1 = iters := by
          injection hproc with hp
          exact congrArg Prod.snd hp
        omega

/-- Witness for C4: dataset one's two candidates are all ready at its
first retrieve; dataset two requests one candidate, its first retrieve
returns nothing, yet the cumulative map size 2 already meets count 1, so
its loop runs zero iterations and the run terminates with dataset one's
entries only. -/
theorem c4_cumulative_count_comparison_witness :
    get_download_urls 1
      [("ds1", [{ entityId := "EA", productId := "P" },
                { entityId := "EB", productId := "P" }]),
       ("ds2", [{ entityId := "EC", productId := "P" }])]
      (fun d _ => if d = 0 then
        [{ downloadId := "DA", entityId := "EA", url := "ua" },
         { downloadId := "DB", entityId := "EB", url := "ub" }]
        else []) =
      (match processDataset 1
          ((fun (d : Nat) (_ : Nat) => if d = 0 then
            [{ downloadId := "DA", entityId := "EA", url := "ua" },
             { downloadId := "DB", entityId := "EB", url := "ub" }]
            else []) 0) 2 [] with
        | none => none
        | some (m₁, _) =>
          match processDataset 1
              ((fun (d : Nat) (_ : Nat) => if d = 0 then
                [{ downloadId := "DA", entityId := "EA", url := "ua" },
                 { downloadId := "DB", entityId := "EB", url := "ub" }]
                else []) 1) 1 m₁ with
          | none => none
          | some (m₂, _) => some m₂) ∧
    processDataset 1 (fun _ => [])  1
      [("DA", { entityId := "EA", url := "ua" }),
       ("DB", { entityId := "EB", url := "ub" })] =
      some (mergeFirst
        [("DA", { entityId := "EA", url := "ua" }),
         ("DB", { entityId := "EB", url := "ub" })] [], 0) :=
  ⟨c4_cumulative_count_comparison.1 1 "ds1" "ds2" _ _ _,
   c4_cumulative_count_comparison.2.1 0 (fun _ => []) 1 _ (by decide)⟩

/-- C5: the polling loop has no retry bound: for the response sequence
that never makes the missing item available, the loop out-runs every
fuel bound (it never terminates); and for every `k` there is a response
sequence on which the loop runs exactly `k + 1` iterations, so the
iteration count is unbounded over response sequences. -/
theorem c5_unbounded_polling :
    (∀ (fuel count : Nat) (m : ReadyDownloadsMap), m.length < count →
      pollLoop fuel (fun _ => []) count m = none) ∧
    (∀ k : Nat, pollLoop (k + 2) (stuckThen k) 1 [] =
      some ([("D1", { entityId := "E1", url := "u1" })], k + 1)) := by
  constructor
  · intro fuel
    induction fuel with
    | zero => intro count m h; rfl
    | succ n ih =>
      intro count m h
      rw [pollLoop_succ_of_lt n _ count m h]
      have hinner : pollLoop n (fun i => (fun _ => ([] : List AvailEntry)) (i + 1))
          count (mergeLoop m ((fun _ => ([] : List AvailEntry)) 0)) = none :=
        ih count m h
      rw [hinner]
  · intro k
    induction k with
    | zero => decide
    | succ k ih =>
      rw [show k + 1 + 2 = (k + 2) + 1 from rfl,
        pollLoop_succ_of_lt (k + 2) (stuckThen (k + 1)) 1 []
          (by decide : ([] : ReadyDownloadsMap).length < 1)]
      have hshift : (fun i => stuckThen (k + 1) (i + 1)) = stuckThen k :=
        funext fun i => by simp [stuckThen, Nat.add_le_add_iff_right]
      have hmerge : mergeLoop [] (stuckThen (k + 1) 0) = [] := by
        simp [stuckThen, mergeLoop]
      rw [hshift, hmerge, ih]

/-- Witness for C5: with five iterations of fuel and a permanently-empty
retrieve the loop is still running; with the item ready at loop call 3 the
loop takes exactly 4 iterations. -/
theorem c5_unbounded_polling_witness :
    pollLoop 5 (fun _ => []) 1 [] = none ∧
    pollLoop 5 (stuckThen 3) 1 [] =
      some ([("D1", { entityId := "E1", url := "u1" })], 4) :=
  ⟨c5_unbounded_polling.1 5 1 [] (by decide), c5_unbounded_polling.2 3⟩

/-! ### File fetch -/

/-- C8 counterexample: `download_to_file` contains no existence check.
With `A.zip` already present in the directory, a call targeting `A.zip`
still performs a body transfer, and a second identical call performs a
second transfer — not the zero transfers the claim requires. -/
theorem c8_fetch_counterexample :
    (download_to_file { files := ["A.zip"], transfers := 0 } "A.zip").1.transfers = 1 ∧
    (download_to_file
      (download_to_file { files := ["A.zip"], transfers := 0 } "A.zip").1
      "A.zip").1.transfers = 2 :=
  ⟨rfl, rfl⟩

/-- C8 amended: the existence skip lives at the call site, not in
`download_to_file`: the main script's loop skips every entry whose
`entityId + '.zip'` was in the directory listing taken before the loop,
so when all entries are already present the loop performs zero transfers
and leaves the state unchanged, while `download_to_file` itself always
transfers. -/
theorem c8_skip_at_call_site (downloads : List ReadyDownload) (s₀ : FetchState)
    (h : ∀ d ∈ downloads, (d.entityId ++ ".zip") ∈ s₀.files) :
    mainDownloadLoop downloads s₀ = s₀ := by
  simp only [mainDownloadLoop]
  induction downloads with
  | nil => rfl
  | cons d rest ih =>
    rw [List.foldl_cons]
    have hd : (d.entityId ++ ".zip") ∈ s₀.files := h d (List.mem_cons_self d rest)
    have hstep : mainLoopStep s₀.files s₀ d = s₀ := by
      simp [mainLoopStep, hd]
    rw [hstep]
    exact ih (fun x hx => h x (List.mem_cons_of_mem d hx))

/-- Witness for the amended C8: one already-present entry, state
unchanged and zero transfers. -/
theorem c8_skip_at_call_site_witness :
    mainDownloadLoop [{ entityId := "A", url := "u" }]
      { files := ["A.zip"], transfers := 0 } =
      { files := ["A.zip"], transfers := 0 } :=
  c8_skip_at_call_site _ _ (by decide)

end ErosDownload
